import Mathlib

/-!
A shallow embedding of the interaction core of `github_statbot.py` (the
GitHub stat Telegram bot).  The repository contains two near-identical
copies of the module (`github_statbot.py` and `src/github_statbot.py`);
they differ only in logging and in an optional authorization header, so a
single embedding covers both for the properties verified here.

Modelling conventions:
* JSON payloads are modelled by the inductive `Json`; numeric payloads are
  modelled as integers (the fields the program reads are integer counts).
* The HTTP layer is an explicit oracle `String → HttpResult` mapping the
  requested URL to either a response (status, reason phrase, parsed body or
  a JSON-parse failure) or a transport-level exception message.
* Each lookup returns a `LookupResult` carrying the reply text, the success
  flag and the list of URLs actually requested, so "no network call" is a
  statable property.
* Python exceptions are modelled by `Except`/`Option`; a handler that the
  source cannot reach normally (unbound local variables, failed unpacking)
  is modelled as `none`.
-/

namespace GithubStat

/-- JSON values as produced by `response.json()`. -/
inductive Json where
  | null
  | bool (b : Bool)
  | num (n : Int)
  | str (s : String)
  | arr (elems : List Json)
  | obj (fields : List (String × Json))

/-- Python type name of a JSON value, as it appears in runtime error
messages such as `'int' object has no attribute 'split'`. -/
def pyType : Json → String
  | .null => "NoneType"
  | .bool _ => "bool"
  | .num _ => "int"
  | .str _ => "str"
  | .arr _ => "list"
  | .obj _ => "dict"

/-- Python truthiness of a JSON value (`if not x`, `x or y`). -/
def pyTruthy : Json → Bool
  | .null => false
  | .bool b => b
  | .num n => n != 0
  | .str s => s != ""
  | .arr es => !es.isEmpty
  | .obj fs => !fs.isEmpty

mutual

/-- Python `repr` of a JSON value (string escaping inside `repr` is not
reproduced; no verified property depends on it). -/
def pyRepr : Json → String
  | .null => "None"
  | .bool true => "True"
  | .bool false => "False"
  | .num n => toString n
  | .str s => "'" ++ s ++ "'"
  | .arr es => "[" ++ String.intercalate ", " (pyReprList es) ++ "]"
  | .obj fs => "\x7b" ++ String.intercalate ", " (pyReprFields fs) ++ "\x7d"

/-- `repr` of the elements of a JSON array. -/
def pyReprList : List Json → List String
  | [] => []
  | j :: rest => pyRepr j :: pyReprList rest

/-- `repr` of the key/value pairs of a JSON object. -/
def pyReprFields : List (String × Json) → List String
  | [] => []
  | (k, v) :: rest => ("'" ++ k ++ "': " ++ pyRepr v) :: pyReprFields rest

end

/-- Python `str` of a JSON value, as interpolated by an f-string. -/
def pyStr (j : Json) : String :=
  match j with
  | .str s => s
  | _ => pyRepr j

/-- Python `len` of a JSON value: defined for strings, lists and dicts,
a `TypeError` (modelled as `none`) otherwise. -/
def pyLen : Json → Option Nat
  | .str s => some s.data.length
  | .arr es => some es.length
  | .obj fs => some fs.length
  | _ => none

/-- First-match association-list lookup, i.e. Python `dict` access for the
dictionaries produced by JSON parsing (whose keys are unique). -/
def jLookup : List (String × Json) → String → Option Json
  | [], _ => none
  | (k, v) :: rest, key => if k = key then some v else jLookup rest key

/-- Python `d.get(key, dflt)`. -/
def jGetD (fields : List (String × Json)) (key : String) (dflt : Json) : Json :=
  (jLookup fields key).getD dflt

/-- Characters of the class `[a-zA-Z0-9-]`. -/
def isUsernameChar (c : Char) : Bool :=
  c.isAlphanum || c = '-'

/-- Full match of the regex body
`[a-zA-Z0-9](?:[a-zA-Z0-9-]{0,37}[a-zA-Z0-9])?` against a character list:
1 to 39 characters, first and last alphanumeric, middle characters
alphanumeric or hyphen. -/
def matchesUsernamePattern : List Char → Bool
  | [] => false
  | [c] => c.isAlphanum
  | c :: rest =>
    c.isAlphanum && rest.length ≤ 38 &&
      rest.dropLast.all isUsernameChar && (rest.getLastD ' ').isAlphanum

/-- `is_valid_github_username` (github_statbot.py:21-23):
`bool(re.match(r'^[a-zA-Z0-9](?:[a-zA-Z0-9-]{0,37}[a-zA-Z0-9])?$', username))`.
Python's `$` matches at the end of the string and also just before a
single trailing newline, so the disjunction below reproduces `re.match`
exactly. -/
def is_valid_github_username (username : String) : Bool :=
  matchesUsernamePattern username.data ||
    (username.data.getLastD ' ' = '\n' &&
      matchesUsernamePattern username.data.dropLast)

/-- ASCII whitespace stripped by Python `str.strip()` (the further Unicode
space characters Python strips never occur in the verified inputs). -/
def pyIsSpace (c : Char) : Bool :=
  c = ' ' || c = '\t' || c = '\n' || c = '\r' || c = '\x0b' || c = '\x0c'

/-- Python `s.strip()`. -/
def pyStrip (s : String) : String :=
  String.mk (((s.data.dropWhile pyIsSpace).reverse.dropWhile pyIsSpace).reverse)

/-- Python `s.split('T')[0]`: the prefix before the first `'T'`. -/
def pySplitT0 (s : String) : String :=
  String.mk (splitAux s.data)
where
  splitAux : List Char → List Char
    | [] => []
    | c :: rest => if c = 'T' then [] else c :: splitAux rest

/-- Outcome of `requests.get(url)` followed by `.json()`: either a response
with a status code, a reason phrase and a body (whose JSON parse may fail
with a `ValueError` carrying a message), or a transport-level exception
(connection error, timeout, ...) carrying `str(e)`. -/
inductive HttpResult where
  | response (status : Nat) (reason : String) (body : Except String Json)
  | transportError (msg : String)

/-- `str(e)` for the `requests.exceptions.HTTPError` raised by
`response.raise_for_status()` (only raised for 400 ≤ status < 600). -/
def httpErrorStr (status : Nat) (reason : String) (url : String) : String :=
  if status < 500 then
    toString status ++ " Client Error: " ++ reason ++ " for url: " ++ url
  else
    toString status ++ " Server Error: " ++ reason ++ " for url: " ++ url

/-- Result of one lookup operation: the reply text, the success flag, and
the URLs requested over the network (instrumentation used to state the
"no network I/O" properties). -/
structure LookupResult where
  reply : String
  success : Bool
  requests : List String
deriving DecidableEq

/-- `f'https://api.github.com/users/{username}'`. -/
def userUrl (username : String) : String :=
  "https://api.github.com/users/" ++ username

/-- `f'https://api.github.com/users/{username}/repos?per_page=5&sort=updated'`. -/
def reposUrl (username : String) : String :=
  "https://api.github.com/users/" ++ username ++ "/repos?per_page=5&sort=updated"

/-- The success-path body of `get_github_user_info`
(github_statbot.py:67-84): field extraction with defaults and the reply
f-string.  Returns the reply together with the success flag; a non-string
`created_at` raises `AttributeError` at `.split('T')`, caught by the
enclosing `except Exception` handler. -/
def formatUserReply (username : String) (fields : List (String × Json)) :
    String × Bool :=
  let name := jGetD fields "name" (.str "N/A")
  let bio := jGetD fields "bio" (.str "N/A")
  let publicRepos := jGetD fields "public_repos" (.num 0)
  let followers := jGetD fields "followers" (.num 0)
  let following := jGetD fields "following" (.num 0)
  match jGetD fields "created_at" (.str "N/A") with
  | .str createdRaw =>
    let createdAt := pySplitT0 createdRaw
    let profileUrl := jGetD fields "html_url" (.str ("https://github.com/" ++ username))
    ("GitHub User: @" ++ username ++ "\n" ++
     "Name: " ++ pyStr name ++ "\n" ++
     "Bio: " ++ pyStr bio ++ "\n" ++
     "Public Repos: " ++ pyStr publicRepos ++ "\n" ++
     "Followers: " ++ pyStr followers ++ "\n" ++
     "Following: " ++ pyStr following ++ "\n" ++
     "Joined: " ++ createdAt ++ "\n" ++
     "Profile: " ++ pyStr profileUrl, true)
  | other =>
    ("An unexpected error occurred: '" ++ pyType other ++
       "' object has no attribute 'split'. Please try again.", false)

/-- `get_github_user_info` (github_statbot.py:49-91), with the HTTP layer
as an explicit oracle from the requested URL to its outcome. -/
def get_github_user_info (http : String → HttpResult) (username : String) :
    LookupResult :=
  if is_valid_github_username username then
    let url := userUrl username
    match http url with
    | .transportError msg =>
      ⟨"An unexpected error occurred: " ++ msg ++ ". Please try again.",
        false, [url]⟩
    | .response status reason body =>
      if status = 403 then
        ⟨"GitHub API rate limit exceeded. Please try again later.", false, [url]⟩
      else if 400 ≤ status ∧ status < 600 then
        if status = 404 then
          ⟨"Sorry, the GitHub user '@" ++ username ++
             "' does not exist. Please check the username and try again.",
            false, [url]⟩
        else
          ⟨"Error fetching user data: " ++ httpErrorStr status reason url,
            false, [url]⟩
      else
        match body with
        | .error msg =>
          ⟨"An unexpected error occurred: " ++ msg ++ ". Please try again.",
            false, [url]⟩
        | .ok (.obj fields) =>
          let fr := formatUserReply username fields
          ⟨fr.1, fr.2, [url]⟩
        | .ok _ =>
          ⟨"Unexpected response from GitHub API for user '@" ++ username ++
             "'. Please try again.", false, [url]⟩
  else
    ⟨"Invalid username '@" ++ username ++
       "'. GitHub usernames can only contain letters, numbers, and hyphens, up to 39 characters.",
      false, []⟩

/-- The description handling of one repository entry
(github_statbot.py:123-125): `repo.get('description') or 'No description'`
followed by `if len(description) > 100: description = description[:100] + '...'`.
The `.error` branches model the `TypeError`s Python raises on non-string
truthy descriptions, caught by the enclosing `except Exception` handler. -/
def truncateDescription (desc : Json) : Except String Json :=
  match desc with
  | .str s =>
    .ok (.str (if s.data.length > 100 then String.mk (s.data.take 100) ++ "..." else s))
  | .arr es =>
    if es.length > 100 then .error "can only concatenate list (not \"str\") to list"
    else .ok (.arr es)
  | .obj fs =>
    if fs.length > 100 then .error "unhashable type: 'slice'"
    else .ok (.obj fs)
  | j => .error ("object of type '" ++ pyType j ++ "' has no len()")

/-- The body of the `for repo in repos_data` loop for one dict entry
(github_statbot.py:122-132). -/
def formatRepoEntry (fieldList : List (String × Json)) : Except String String :=
  let name := jGetD fieldList "name" (.str "N/A")
  let descRaw := (jLookup fieldList "description").getD .null
  let desc0 := if pyTruthy descRaw then descRaw else .str "No description"
  match truncateDescription desc0 with
  | .error e => .error e
  | .ok description =>
    let stars := jGetD fieldList "stargazers_count" (.num 0)
    let rurl := jGetD fieldList "html_url" (.str "#")
    .ok ("📂 " ++ pyStr name ++ "\n" ++
         "Description: " ++ pyStr description ++ "\n" ++
         "⭐ Stars: " ++ pyStr stars ++ "\n" ++
         "URL: " ++ pyStr rurl ++ "\n\n")

/-- The `for repo in repos_data` loop (github_statbot.py:118-132): non-dict
entries are skipped, a raised exception aborts the whole reply. -/
def reposLoop : List Json → Except String String
  | [] => .ok ""
  | repo :: rest =>
    match repo with
    | .obj fieldList =>
      match formatRepoEntry fieldList with
      | .error e => .error e
      | .ok entry => (reposLoop rest).map (fun s => entry ++ s)
    | _ => reposLoop rest

/-- `get_github_repos` (github_statbot.py:93-142), with the HTTP layer as
an explicit oracle from the requested URL to its outcome. -/
def get_github_repos (http : String → HttpResult) (username : String) :
    LookupResult :=
  if is_valid_github_username username then
    let url := reposUrl username
    match http url with
    | .transportError msg =>
      ⟨"An unexpected error occurred: " ++ msg ++ ". Please try again.",
        false, [url]⟩
    | .response status reason body =>
      if status = 403 then
        ⟨"GitHub API rate limit exceeded. Please try again later.", false, [url]⟩
      else if 400 ≤ status ∧ status < 600 then
        if status = 404 then
          ⟨"Sorry, the GitHub user '@" ++ username ++
             "' does not exist. Please check the username and try again.",
            false, [url]⟩
        else
          ⟨"Error fetching repos: " ++ httpErrorStr status reason url ++
             ". Please try again.", false, [url]⟩
      else
        match body with
        | .error msg =>
          ⟨"An unexpected error occurred: " ++ msg ++ ". Please try again.",
            false, [url]⟩
        | .ok (.arr reposData) =>
          if reposData.isEmpty then
            ⟨"No public repositories found for @" ++ username ++ ".", true, [url]⟩
          else
            match reposLoop reposData with
            | .ok bodyText =>
              ⟨"Top 5 repositories for @" ++ username ++ ":\n\n" ++ bodyText,
                true, [url]⟩
            | .error e =>
              ⟨"An unexpected error occurred: " ++ e ++ ". Please try again.",
                false, [url]⟩
        | .ok _ =>
          ⟨"Unexpected response from GitHub API for repositories of '@" ++
             username ++ "'. Please try again.", false, [url]⟩
  else
    ⟨"Invalid username '@" ++ username ++
       "'. GitHub usernames can only contain letters, numbers, and hyphens, up to 39 characters.",
      false, []⟩

/-- The per-conversation state `context.user_data`: the only key the
program ever writes is `'last_username'`. -/
structure ConvState where
  last_username : Option String
deriving DecidableEq

/-- An `InlineKeyboardButton(label, callback_data)`. -/
structure Button where
  label : String
  callback_data : String
deriving DecidableEq

/-- One outbound `reply_text(text, reply_markup)` call. -/
structure OutMsg where
  text : String
  reply_markup : Option (List (List Button))
deriving DecidableEq

/-- The two-plus-quit inline keyboard offered for `username`
(github_statbot.py:154-160 and 189-195). -/
def menuKeyboard (username : String) : List (List Button) :=
  [[⟨"User Info", "user_" ++ username⟩,
    ⟨"Repositories", "repos_" ++ username⟩],
   [⟨"Quit", "quit_" ++ username⟩]]

/-- `handle_username` (github_statbot.py:144-166): trims the message body,
stores it under `'last_username'` (before validating), then either replies
with the validation error or offers the choice menu. -/
def handle_username (st : ConvState) (text : String) : ConvState × List OutMsg :=
  let username := pyStrip text
  let st' := { st with last_username := some username }
  if is_valid_github_username username then
    (st', [⟨"What would you like to know about @" ++ username ++ "?",
            some (menuKeyboard username)⟩])
  else
    (st', [⟨"Invalid username '@" ++ username ++
              "'. GitHub usernames can only contain letters, numbers, and hyphens, up to 39 characters.",
            none⟩])

/-- Python `s.split('_', 1)` restricted to the two-element unpacking
`action, username = ...`: `none` models the `ValueError` raised when the
separator is absent. -/
def splitFirst : List Char → Option (List Char × List Char)
  | [] => none
  | c :: cs =>
    if c = '_' then some ([], cs)
    else
      match splitFirst cs with
      | none => none
      | some (pre, post) => some (c :: pre, post)

/-- The replies emitted after a `user`/`repos` lookup
(github_statbot.py:187-200): the formatted result, then — only when the
lookup succeeded — the choice menu again. -/
def lookupReplies (username : String) (r : LookupResult) : List OutMsg :=
  if r.success then
    [⟨r.reply, none⟩,
     ⟨"Anything else about @" ++ username ++ "?", some (menuKeyboard username)⟩]
  else
    [⟨r.reply, none⟩]

/-- `button_callback` (github_statbot.py:168-200).  `none` models an
uncaught exception: the `ValueError` of the two-way unpacking when the
callback data holds no underscore, and the `NameError` at
`reply_text(reply)` when the action prefix is none of `quit`/`user`/`repos`
(then `reply` and `success` were never bound). -/
def button_callback (http : String → HttpResult) (st : ConvState)
    (data : String) : Option (ConvState × List OutMsg) :=
  match splitFirst data.data with
  | none => none
  | some (pre, post) =>
    let action := String.mk pre
    let username := String.mk post
    if action = "quit" then
      some ({ st with last_username := none },
        [⟨"Interaction ended. Send another username or use /help for commands.",
          none⟩])
    else if action = "user" then
      some (st, lookupReplies username (get_github_user_info http username))
    else if action = "repos" then
      some (st, lookupReplies username (get_github_repos http username))
    else none

/-- The spec's `LookupOutcome` tags. -/
inductive OutcomeTag where
  | success
  | notFound
  | rateLimited
  | malformedUpstream
  | networkOrTransportFailure
  | validationError
deriving DecidableEq

/-- Modelled from the spec: the `LookupOutcome` tag of a profile lookup,
following the spec's status-code mapping (200 with an object body →
Success, 200 with a non-object body → MalformedUpstream, 404 → NotFound,
403 → RateLimited, transport errors, JSON-parse failures and every other
status → NetworkOrTransportFailure; invalid identifiers are rejected
before any request).  Statuses the spec leaves unclassified (2xx other
than 200, 1xx, 3xx) are completed as NetworkOrTransportFailure. -/
def specTagUser (username : String) (r : HttpResult) : OutcomeTag :=
  if is_valid_github_username username then
    match r with
    | .transportError _ => .networkOrTransportFailure
    | .response status _ body =>
      if status = 403 then .rateLimited
      else if 400 ≤ status ∧ status < 600 then
        if status = 404 then .notFound else .networkOrTransportFailure
      else
        match body with
        | .error _ => .networkOrTransportFailure
        | .ok (.obj _) =>
          if status = 200 then .success else .networkOrTransportFailure
        | .ok _ =>
          if status = 200 then .malformedUpstream else .networkOrTransportFailure
  else .validationError

/-- Modelled from the spec: the `LookupOutcome` tag of a repositories
lookup; as `specTagUser`, with the 200 shape check expecting an array. -/
def specTagRepos (username : String) (r : HttpResult) : OutcomeTag :=
  if is_valid_github_username username then
    match r with
    | .transportError _ => .networkOrTransportFailure
    | .response status _ body =>
      if status = 403 then .rateLimited
      else if 400 ≤ status ∧ status < 600 then
        if status = 404 then .notFound else .networkOrTransportFailure
      else
        match body with
        | .error _ => .networkOrTransportFailure
        | .ok (.arr _) =>
          if status = 200 then .success else .networkOrTransportFailure
        | .ok _ =>
          if status = 200 then .malformedUpstream else .networkOrTransportFailure
  else .validationError

/-- The deterministic reply text of a profile lookup for each non-success,
non-network outcome tag. -/
def tagTextUser : OutcomeTag → String → String
  | .validationError, u =>
    "Invalid username '@" ++ u ++
      "'. GitHub usernames can only contain letters, numbers, and hyphens, up to 39 characters."
  | .rateLimited, _ => "GitHub API rate limit exceeded. Please try again later."
  | .notFound, u =>
    "Sorry, the GitHub user '@" ++ u ++
      "' does not exist. Please check the username and try again."
  | .malformedUpstream, u =>
    "Unexpected response from GitHub API for user '@" ++ u ++
      "'. Please try again."
  | _, _ => ""

/-- The deterministic reply text of a repositories lookup for each
non-success, non-network outcome tag. -/
def tagTextRepos : OutcomeTag → String → String
  | .validationError, u =>
    "Invalid username '@" ++ u ++
      "'. GitHub usernames can only contain letters, numbers, and hyphens, up to 39 characters."
  | .rateLimited, _ => "GitHub API rate limit exceeded. Please try again later."
  | .notFound, u =>
    "Sorry, the GitHub user '@" ++ u ++
      "' does not exist. Please check the username and try again."
  | .malformedUpstream, u =>
    "Unexpected response from GitHub API for repositories of '@" ++ u ++
      "'. Please try again."
  | _, _ => ""

/-- Whether a JSON value is an object (`isinstance(x, dict)`). -/
def Json.isObj : Json → Bool
  | .obj _ => true
  | _ => false

/-- Whether a JSON value is an array (`isinstance(x, list)`). -/
def Json.isArr : Json → Bool
  | .arr _ => true
  | _ => false

/-- Claim C2: for every string that fails identifier validation, both
lookup operations return the validation-error message with success =
false and perform no HTTP request at all; only validated identifiers ever
reach the remote API. -/
theorem c2_invalid_input_never_reaches_network (http : String → HttpResult)
    (u : String) :
    (is_valid_github_username u = false →
      get_github_user_info http u =
        ⟨"Invalid username '@" ++ u ++
           "'. GitHub usernames can only contain letters, numbers, and hyphens, up to 39 characters.",
          false, []⟩ ∧
      get_github_repos http u =
        ⟨"Invalid username '@" ++ u ++
           "'. GitHub usernames can only contain letters, numbers, and hyphens, up to 39 characters.",
          false, []⟩) ∧
    ((get_github_user_info http u).requests = [] ∨
      is_valid_github_username u = true) ∧
    ((get_github_repos http u).requests = [] ∨
      is_valid_github_username u = true) := by
  refine ⟨fun h => ⟨?_, ?_⟩, ?_, ?_⟩
  · simp [get_github_user_info, h]
  · simp [get_github_repos, h]
  · cases h : is_valid_github_username u
    · exact Or.inl (by simp [get_github_user_info, h])
    · exact Or.inr rfl
  · cases h : is_valid_github_username u
    · exact Or.inl (by simp [get_github_repos, h])
    · exact Or.inr rfl

/-- Witness for C2 at the identifier `-bad-name-`. -/
theorem c2_witness :
    is_valid_github_username "-bad-name-" = false ∧
    get_github_user_info (fun _ => .response 200 "OK" (.ok .null)) "-bad-name-" =
      ⟨"Invalid username '@-bad-name-'. GitHub usernames can only contain letters, numbers, and hyphens, up to 39 characters.",
        false, []⟩ ∧
    get_github_repos (fun _ => .response 200 "OK" (.ok .null)) "-bad-name-" =
      ⟨"Invalid username '@-bad-name-'. GitHub usernames can only contain letters, numbers, and hyphens, up to 39 characters.",
        false, []⟩ := by
  refine ⟨by decide, ?_, ?_⟩
  · rw [((c2_invalid_input_never_reaches_network
      (fun _ => .response 200 "OK" (.ok .null)) "-bad-name-").1 (by decide)).1]
    decide
  · rw [((c2_invalid_input_never_reaches_network
      (fun _ => .response 200 "OK" (.ok .null)) "-bad-name-").1 (by decide)).2]
    decide

/-- Claim C4 (code bug evidence): the validator accepts `"abc\n"` although
the newline is outside `[A-Za-z0-9-]`, and accepts a 40-character string,
because Python's `$` anchor also matches just before a single trailing
newline.  The code's own comment and help text ("letters, numbers, and
hyphens, up to 39 characters") say such strings must be rejected. -/
theorem c4_trailing_newline_accepted :
    is_valid_github_username "abc\n" = true ∧
    ("abc\n").data.all isUsernameChar = false ∧
    is_valid_github_username (String.mk (List.replicate 39 'a' ++ ['\n'])) = true ∧
    (String.mk (List.replicate 39 'a' ++ ['\n'])).length = 40 := by decide

/-- Claim C5: for every valid identifier, HTTP 403 yields the rate-limited
"try again later" message with success = false, and HTTP 404 yields the
"does not exist" message with success = false, for both lookups. -/
theorem c5_status_403_404_mapping (u reason : String) (body : Except String Json)
    (h : is_valid_github_username u = true) :
    get_github_user_info (fun _ => .response 403 reason body) u =
      ⟨"GitHub API rate limit exceeded. Please try again later.", false,
        [userUrl u]⟩ ∧
    get_github_repos (fun _ => .response 403 reason body) u =
      ⟨"GitHub API rate limit exceeded. Please try again later.", false,
        [reposUrl u]⟩ ∧
    get_github_user_info (fun _ => .response 404 reason body) u =
      ⟨"Sorry, the GitHub user '@" ++ u ++
         "' does not exist. Please check the username and try again.",
        false, [userUrl u]⟩ ∧
    get_github_repos (fun _ => .response 404 reason body) u =
      ⟨"Sorry, the GitHub user '@" ++ u ++
         "' does not exist. Please check the username and try again.",
        false, [reposUrl u]⟩ := by
  refine ⟨?_, ?_, ?_, ?_⟩ <;> simp [get_github_user_info, get_github_repos, h]

/-- Witness for C5 at `octocat`. -/
theorem c5_witness :
    is_valid_github_username "octocat" = true ∧
    get_github_user_info (fun _ => .response 403 "Forbidden" (.ok .null)) "octocat" =
      ⟨"GitHub API rate limit exceeded. Please try again later.", false,
        [userUrl "octocat"]⟩ ∧
    get_github_user_info (fun _ => .response 404 "Not Found" (.ok .null)) "octocat" =
      ⟨"Sorry, the GitHub user '@octocat' does not exist. Please check the username and try again.",
        false, [userUrl "octocat"]⟩ := by
  refine ⟨by decide, ?_, ?_⟩
  · rw [(c5_status_403_404_mapping "octocat" "Forbidden" (.ok .null) (by decide)).1]
  · rw [(c5_status_403_404_mapping "octocat" "Not Found" (.ok .null) (by decide)).2.2.1]
    decide

/-- Claim C6: for every valid identifier, HTTP 200 with a non-object
profile payload (resp. non-array repository payload) yields the generic
unexpected-response message with success = false rather than a success
result. -/
theorem c6_shape_check_on_200 (u reason : String) (j : Json)
    (h : is_valid_github_username u = true) :
    (j.isObj = false →
      get_github_user_info (fun _ => .response 200 reason (.ok j)) u =
        ⟨"Unexpected response from GitHub API for user '@" ++ u ++
           "'. Please try again.", false, [userUrl u]⟩) ∧
    (j.isArr = false →
      get_github_repos (fun _ => .response 200 reason (.ok j)) u =
        ⟨"Unexpected response from GitHub API for repositories of '@" ++ u ++
           "'. Please try again.", false, [reposUrl u]⟩) := by
  constructor
  · intro hj
    cases j <;> simp_all [get_github_user_info, Json.isObj]
  · intro hj
    cases j <;> simp_all [get_github_repos, Json.isArr]

/-- Witness for C6 at `octocat` with a string payload. -/
theorem c6_witness :
    is_valid_github_username "octocat" = true ∧
    get_github_user_info (fun _ => .response 200 "OK" (.ok (.str "hi"))) "octocat" =
      ⟨"Unexpected response from GitHub API for user '@octocat'. Please try again.",
        false, [userUrl "octocat"]⟩ ∧
    get_github_repos (fun _ => .response 200 "OK" (.ok (.str "hi"))) "octocat" =
      ⟨"Unexpected response from GitHub API for repositories of '@octocat'. Please try again.",
        false, [reposUrl "octocat"]⟩ := by
  refine ⟨by decide, ?_, ?_⟩
  · rw [(c6_shape_check_on_200 "octocat" "OK" (.str "hi") (by decide)).1 (by decide)]
    decide
  · rw [(c6_shape_check_on_200 "octocat" "OK" (.str "hi") (by decide)).2 (by decide)]
    decide

/-- Claim C8: for every valid identifier, HTTP 200 with an empty
repository array yields the distinct "no public repositories" message
with success = true. -/
theorem c8_empty_repository_list_is_success (u reason : String)
    (h : is_valid_github_username u = true) :
    get_github_repos (fun _ => .response 200 reason (.ok (.arr []))) u =
      ⟨"No public repositories found for @" ++ u ++ ".", true, [reposUrl u]⟩ := by
  simp [get_github_repos, h, reposLoop]

/-- Witness for C8 at `octocat`. -/
theorem c8_witness :
    is_valid_github_username "octocat" = true ∧
    get_github_repos (fun _ => .response 200 "OK" (.ok (.arr []))) "octocat" =
      ⟨"No public repositories found for @octocat.", true, [reposUrl "octocat"]⟩ := by
  refine ⟨by decide, ?_⟩
  rw [c8_empty_repository_list_is_success "octocat" "OK" (by decide)]
  decide

/-- Claim C1 counterexample: handling the invalid message `-bad-name-`
emits the validation-error reply but does *not* leave the conversation
state unchanged: the stored last identifier is overwritten with the
invalid body before validation runs. -/
theorem c1_counterexample :
    is_valid_github_username (pyStrip "-bad-name-") = false ∧
    (handle_username ⟨some "octocat"⟩ "-bad-name-").2 =
      [⟨"Invalid username '@-bad-name-'. GitHub usernames can only contain letters, numbers, and hyphens, up to 39 characters.",
        none⟩] ∧
    (handle_username ⟨some "octocat"⟩ "-bad-name-").1 ≠ ⟨some "octocat"⟩ := by
  decide

/-- Claim C1 as amended: handling a free-text message whose trimmed body
fails validation emits exactly the validation-error reply with no menu,
and the only state change is that the trimmed body is stored as the last
identifier (overwriting the previous value). -/
theorem c1_invalid_input_reply_and_state (st : ConvState) (text : String)
    (h : is_valid_github_username (pyStrip text) = false) :
    handle_username st text =
      ({ st with last_username := some (pyStrip text) },
        [⟨"Invalid username '@" ++ pyStrip text ++
            "'. GitHub usernames can only contain letters, numbers, and hyphens, up to 39 characters.",
          none⟩]) := by
  simp [handle_username, h]

/-- Witness for the amended C1 at state `octocat`, message `-bad-name-`. -/
theorem c1_witness :
    handle_username ⟨some "octocat"⟩ "-bad-name-" =
      (⟨some "-bad-name-"⟩,
        [⟨"Invalid username '@-bad-name-'. GitHub usernames can only contain letters, numbers, and hyphens, up to 39 characters.",
          none⟩]) := by
  rw [c1_invalid_input_reply_and_state ⟨some "octocat"⟩ "-bad-name-" (by decide)]
  decide

/-- `String.mk` undoes `String.data`. -/
theorem string_mk_data (s : String) : String.mk s.data = s := rfl

/-- `split('_', 1)` cuts exactly at the first underscore. -/
theorem splitFirst_append (xs ys : List Char) (h : ∀ c ∈ xs, c ≠ '_') :
    splitFirst (xs ++ '_' :: ys) = some (xs, ys) := by
  induction xs with
  | nil => simp [splitFirst]
  | cons c cs ih =>
    have hc : c ≠ '_' := h c (List.mem_cons_self c cs)
    simp [splitFirst, hc, ih (fun d hd => h d (List.mem_cons_of_mem c hd))]

/-- Claim C3: in AwaitingChoice (a stored identifier `u`), pressing the
`user`/`repos` button for `u` performs the corresponding lookup, emits its
formatted result and re-offers the same menu for `u` exactly when the
lookup succeeded (`lookupReplies`); pressing the `quit` button clears the
stored state, emits the acknowledgement and offers no menu. -/
theorem c3_choice_press_dispatch (http : String → HttpResult) (st : ConvState)
    (u : String) (h : st.last_username = some u) :
    button_callback http st ("quit_" ++ u) =
      some ({ st with last_username := none },
        [⟨"Interaction ended. Send another username or use /help for commands.",
          none⟩]) ∧
    button_callback http st ("user_" ++ u) =
      some (st, lookupReplies u (get_github_user_info http u)) ∧
    button_callback http st ("repos_" ++ u) =
      some (st, lookupReplies u (get_github_repos http u)) := by
  have hq : splitFirst ('q' :: 'u' :: 'i' :: 't' :: '_' :: u.data) =
      some (['q', 'u', 'i', 't'], u.data) :=
    splitFirst_append ['q', 'u', 'i', 't'] u.data (by decide)
  have hu : splitFirst ('u' :: 's' :: 'e' :: 'r' :: '_' :: u.data) =
      some (['u', 's', 'e', 'r'], u.data) :=
    splitFirst_append ['u', 's', 'e', 'r'] u.data (by decide)
  have hr : splitFirst ('r' :: 'e' :: 'p' :: 'o' :: 's' :: '_' :: u.data) =
      some (['r', 'e', 'p', 'o', 's'], u.data) :=
    splitFirst_append ['r', 'e', 'p', 'o', 's'] u.data (by decide)
  have hmkq : String.mk ['q', 'u', 'i', 't'] = "quit" := rfl
  have hmku : String.mk ['u', 's', 'e', 'r'] = "user" := rfl
  have hmkr : String.mk ['r', 'e', 'p', 'o', 's'] = "repos" := rfl
  refine ⟨?_, ?_, ?_⟩
  · simp [button_callback, hq, hmkq]
  · simp [button_callback, hu, hmku, string_mk_data]
  · simp [button_callback, hr, hmkr, string_mk_data]

/-- Witness for C3: state `octocat`, a 404-answering remote. -/
theorem c3_witness :
    button_callback (fun _ => HttpResult.response 404 "Not Found" (Except.ok Json.null))
        ⟨some "octocat"⟩ ("quit_" ++ "octocat") =
      some (⟨none⟩,
        [⟨"Interaction ended. Send another username or use /help for commands.",
          none⟩]) ∧
    button_callback (fun _ => HttpResult.response 404 "Not Found" (Except.ok Json.null))
        ⟨some "octocat"⟩ ("user_" ++ "octocat") =
      some (⟨some "octocat"⟩,
        lookupReplies "octocat"
          (get_github_user_info
            (fun _ => HttpResult.response 404 "Not Found" (Except.ok Json.null))
            "octocat")) ∧
    button_callback (fun _ => HttpResult.response 404 "Not Found" (Except.ok Json.null))
        ⟨some "octocat"⟩ ("repos_" ++ "octocat") =
      some (⟨some "octocat"⟩,
        lookupReplies "octocat"
          (get_github_repos
            (fun _ => HttpResult.response 404 "Not Found" (Except.ok Json.null))
            "octocat")) :=
  c3_choice_press_dispatch _ ⟨some "octocat"⟩ "octocat" rfl

/-- Claim C10: a callback press completes normally exactly when the
callback data contains an underscore and the prefix before the first
underscore is `quit`, `user` or `repos`; otherwise the handler raises
(failed two-way unpacking, or unbound `reply`/`success` at the reply step)
and sends nothing. -/
theorem c10_callback_data_domain (http : String → HttpResult) (st : ConvState)
    (data : String) :
    (button_callback http st data).isSome = true ↔
      ∃ pre post, splitFirst data.data = some (pre, post) ∧
        (String.mk pre = "quit" ∨ String.mk pre = "user" ∨
          String.mk pre = "repos") := by
  unfold button_callback
  cases hsp : splitFirst data.data with
  | none => simp
  | some pp =>
    obtain ⟨pre, post⟩ := pp
    by_cases h1 : String.mk pre = "quit"
    · simp [h1]
    · by_cases h2 : String.mk pre = "user"
      · simp [h1, h2]
      · by_cases h3 : String.mk pre = "repos"
        · simp [h1, h2, h3]
        · simp [h1, h2, h3]

/-- Appending a key that is absent from `fields` changes no other lookup. -/
theorem jLookup_append_absent (fields : List (String × Json)) (k key : String)
    (d : Json) (h : jLookup fields k = none) :
    jLookup (fields ++ [(k, d)]) key =
      if k = key then some d else jLookup fields key := by
  induction fields with
  | nil => simp [jLookup]
  | cons p rest ih =>
    obtain ⟨k0, v⟩ := p
    rw [jLookup] at h
    by_cases hk0k : k0 = k
    · rw [if_pos hk0k] at h
      exact absurd h (by simp)
    · rw [if_neg hk0k] at h
      by_cases hk0key : k0 = key
      · have hkkey : ¬k = key := fun hk => hk0k (hk0key.trans hk.symm)
        simp [jLookup, hk0key, hkkey]
      · simp [jLookup, hk0key, ih h]

/-- `d.get(key, dflt)` is unchanged by appending an absent key, provided
the appended value is the default used at that key. -/
theorem jGetD_append_absent (fields : List (String × Json)) (k key : String)
    (d dflt : Json) (h : jLookup fields k = none)
    (hc : k ≠ key ∨ d = dflt) :
    jGetD (fields ++ [(k, d)]) key dflt = jGetD fields key dflt := by
  unfold jGetD
  rw [jLookup_append_absent fields k key d h]
  by_cases hk : k = key
  · subst hk
    rcases hc with hne | hd
    · exact absurd rfl hne
    · subst hd
      simp [h]
  · rw [if_neg hk]

/-- The profile reply depends on the payload only through the seven
`get`-with-default lookups. -/
theorem formatUserReply_congr (u : String) (f₁ f₂ : List (String × Json))
    (h1 : jGetD f₁ "name" (.str "N/A") = jGetD f₂ "name" (.str "N/A"))
    (h2 : jGetD f₁ "bio" (.str "N/A") = jGetD f₂ "bio" (.str "N/A"))
    (h3 : jGetD f₁ "public_repos" (.num 0) = jGetD f₂ "public_repos" (.num 0))
    (h4 : jGetD f₁ "followers" (.num 0) = jGetD f₂ "followers" (.num 0))
    (h5 : jGetD f₁ "following" (.num 0) = jGetD f₂ "following" (.num 0))
    (h6 : jGetD f₁ "created_at" (.str "N/A") = jGetD f₂ "created_at" (.str "N/A"))
    (h7 : jGetD f₁ "html_url" (.str ("https://github.com/" ++ u)) =
      jGetD f₂ "html_url" (.str ("https://github.com/" ++ u))) :
    formatUserReply u f₁ = formatUserReply u f₂ := by
  unfold formatUserReply
  rw [h1, h2, h3, h4, h5, h6, h7]

/-- Claim C9: absent fields of a well-formed profile payload are
defaulted, not treated as malformed.  The first conjunct exhibits the
defaults on the empty payload (name/bio/joined → `N/A`, counts → 0,
profile URL → the canonical constructed URL); the remaining conjuncts
show that, for every payload, a lookup with an absent field behaves
exactly as if the field were present with its documented default. -/
theorem c9_absent_fields_are_defaulted (u : String)
    (fields : List (String × Json)) (h : is_valid_github_username u = true) :
    (get_github_user_info (fun _ => .response 200 "OK" (.ok (.obj []))) "octocat" =
      ⟨"GitHub User: @octocat\nName: N/A\nBio: N/A\nPublic Repos: 0\nFollowers: 0\nFollowing: 0\nJoined: N/A\nProfile: https://github.com/octocat",
        true, [userUrl "octocat"]⟩) ∧
    (jLookup fields "name" = none →
      get_github_user_info
          (fun _ => .response 200 "OK" (.ok (.obj (fields ++ [("name", Json.str "N/A")])))) u =
        get_github_user_info (fun _ => .response 200 "OK" (.ok (.obj fields))) u) ∧
    (jLookup fields "bio" = none →
      get_github_user_info
          (fun _ => .response 200 "OK" (.ok (.obj (fields ++ [("bio", Json.str "N/A")])))) u =
        get_github_user_info (fun _ => .response 200 "OK" (.ok (.obj fields))) u) ∧
    (jLookup fields "public_repos" = none →
      get_github_user_info
          (fun _ => .response 200 "OK" (.ok (.obj (fields ++ [("public_repos", Json.num 0)])))) u =
        get_github_user_info (fun _ => .response 200 "OK" (.ok (.obj fields))) u) ∧
    (jLookup fields "followers" = none →
      get_github_user_info
          (fun _ => .response 200 "OK" (.ok (.obj (fields ++ [("followers", Json.num 0)])))) u =
        get_github_user_info (fun _ => .response 200 "OK" (.ok (.obj fields))) u) ∧
    (jLookup fields "following" = none →
      get_github_user_info
          (fun _ => .response 200 "OK" (.ok (.obj (fields ++ [("following", Json.num 0)])))) u =
        get_github_user_info (fun _ => .response 200 "OK" (.ok (.obj fields))) u) ∧
    (jLookup fields "created_at" = none →
      get_github_user_info
          (fun _ => .response 200 "OK" (.ok (.obj (fields ++ [("created_at", Json.str "N/A")])))) u =
        get_github_user_info (fun _ => .response 200 "OK" (.ok (.obj fields))) u) ∧
    (jLookup fields "html_url" = none →
      get_github_user_info
          (fun _ => .response 200 "OK"
            (.ok (.obj (fields ++ [("html_url", Json.str ("https://github.com/" ++ u))])))) u =
        get_github_user_info (fun _ => .response 200 "OK" (.ok (.obj fields))) u) := by
  refine ⟨by decide, ?_, ?_, ?_, ?_, ?_, ?_, ?_⟩
  · intro habs
    have hfr : formatUserReply u (fields ++ [("name", Json.str "N/A")]) =
        formatUserReply u fields :=
      formatUserReply_congr u _ _
        (jGetD_append_absent fields "name" "name" (Json.str "N/A") (Json.str "N/A") habs (Or.inr rfl))
        (jGetD_append_absent fields "name" "bio" (Json.str "N/A") (Json.str "N/A") habs (Or.inl (by decide)))
        (jGetD_append_absent fields "name" "public_repos" (Json.str "N/A") (Json.num 0) habs (Or.inl (by decide)))
        (jGetD_append_absent fields "name" "followers" (Json.str "N/A") (Json.num 0) habs (Or.inl (by decide)))
        (jGetD_append_absent fields "name" "following" (Json.str "N/A") (Json.num 0) habs (Or.inl (by decide)))
        (jGetD_append_absent fields "name" "created_at" (Json.str "N/A") (Json.str "N/A") habs (Or.inl (by decide)))
        (jGetD_append_absent fields "name" "html_url" (Json.str "N/A")
          (Json.str ("https://github.com/" ++ u)) habs (Or.inl (by decide)))
    simp [get_github_user_info, h, hfr]
  · intro habs
    have hfr : formatUserReply u (fields ++ [("bio", Json.str "N/A")]) =
        formatUserReply u fields :=
      formatUserReply_congr u _ _
        (jGetD_append_absent fields "bio" "name" (Json.str "N/A") (Json.str "N/A") habs (Or.inl (by decide)))
        (jGetD_append_absent fields "bio" "bio" (Json.str "N/A") (Json.str "N/A") habs (Or.inr rfl))
        (jGetD_append_absent fields "bio" "public_repos" (Json.str "N/A") (Json.num 0) habs (Or.inl (by decide)))
        (jGetD_append_absent fields "bio" "followers" (Json.str "N/A") (Json.num 0) habs (Or.inl (by decide)))
        (jGetD_append_absent fields "bio" "following" (Json.str "N/A") (Json.num 0) habs (Or.inl (by decide)))
        (jGetD_append_absent fields "bio" "created_at" (Json.str "N/A") (Json.str "N/A") habs (Or.inl (by decide)))
        (jGetD_append_absent fields "bio" "html_url" (Json.str "N/A")
          (Json.str ("https://github.com/" ++ u)) habs (Or.inl (by decide)))
    simp [get_github_user_info, h, hfr]
  · intro habs
    have hfr : formatUserReply u (fields ++ [("public_repos", Json.num 0)]) =
        formatUserReply u fields :=
      formatUserReply_congr u _ _
        (jGetD_append_absent fields "public_repos" "name" (Json.num 0) (Json.str "N/A") habs (Or.inl (by decide)))
        (jGetD_append_absent fields "public_repos" "bio" (Json.num 0) (Json.str "N/A") habs (Or.inl (by decide)))
        (jGetD_append_absent fields "public_repos" "public_repos" (Json.num 0) (Json.num 0) habs (Or.inr rfl))
        (jGetD_append_absent fields "public_repos" "followers" (Json.num 0) (Json.num 0) habs (Or.inl (by decide)))
        (jGetD_append_absent fields "public_repos" "following" (Json.num 0) (Json.num 0) habs (Or.inl (by decide)))
        (jGetD_append_absent fields "public_repos" "created_at" (Json.num 0) (Json.str "N/A") habs (Or.inl (by decide)))
        (jGetD_append_absent fields "public_repos" "html_url" (Json.num 0)
          (Json.str ("https://github.com/" ++ u)) habs (Or.inl (by decide)))
    simp [get_github_user_info, h, hfr]
  · intro habs
    have hfr : formatUserReply u (fields ++ [("followers", Json.num 0)]) =
        formatUserReply u fields :=
      formatUserReply_congr u _ _
        (jGetD_append_absent fields "followers" "name" (Json.num 0) (Json.str "N/A") habs (Or.inl (by decide)))
        (jGetD_append_absent fields "followers" "bio" (Json.num 0) (Json.str "N/A") habs (Or.inl (by decide)))
        (jGetD_append_absent fields "followers" "public_repos" (Json.num 0) (Json.num 0) habs (Or.inl (by decide)))
        (jGetD_append_absent fields "followers" "followers" (Json.num 0) (Json.num 0) habs (Or.inr rfl))
        (jGetD_append_absent fields "followers" "following" (Json.num 0) (Json.num 0) habs (Or.inl (by decide)))
        (jGetD_append_absent fields "followers" "created_at" (Json.num 0) (Json.str "N/A") habs (Or.inl (by decide)))
        (jGetD_append_absent fields "followers" "html_url" (Json.num 0)
          (Json.str ("https://github.com/" ++ u)) habs (Or.inl (by decide)))
    simp [get_github_user_info, h, hfr]
  · intro habs
    have hfr : formatUserReply u (fields ++ [("following", Json.num 0)]) =
        formatUserReply u fields :=
      formatUserReply_congr u _ _
        (jGetD_append_absent fields "following" "name" (Json.num 0) (Json.str "N/A") habs (Or.inl (by decide)))
        (jGetD_append_absent fields "following" "bio" (Json.num 0) (Json.str "N/A") habs (Or.inl (by decide)))
        (jGetD_append_absent fields "following" "public_repos" (Json.num 0) (Json.num 0) habs (Or.inl (by decide)))
        (jGetD_append_absent fields "following" "followers" (Json.num 0) (Json.num 0) habs (Or.inl (by decide)))
        (jGetD_append_absent fields "following" "following" (Json.num 0) (Json.num 0) habs (Or.inr rfl))
        (jGetD_append_absent fields "following" "created_at" (Json.num 0) (Json.str "N/A") habs (Or.inl (by decide)))
        (jGetD_append_absent fields "following" "html_url" (Json.num 0)
          (Json.str ("https://github.com/" ++ u)) habs (Or.inl (by decide)))
    simp [get_github_user_info, h, hfr]
  · intro habs
    have hfr : formatUserReply u (fields ++ [("created_at", Json.str "N/A")]) =
        formatUserReply u fields :=
      formatUserReply_congr u _ _
        (jGetD_append_absent fields "created_at" "name" (Json.str "N/A") (Json.str "N/A") habs (Or.inl (by decide)))
        (jGetD_append_absent fields "created_at" "bio" (Json.str "N/A") (Json.str "N/A") habs (Or.inl (by decide)))
        (jGetD_append_absent fields "created_at" "public_repos" (Json.str "N/A") (Json.num 0) habs (Or.inl (by decide)))
        (jGetD_append_absent fields "created_at" "followers" (Json.str "N/A") (Json.num 0) habs (Or.inl (by decide)))
        (jGetD_append_absent fields "created_at" "following" (Json.str "N/A") (Json.num 0) habs (Or.inl (by decide)))
        (jGetD_append_absent fields "created_at" "created_at" (Json.str "N/A") (Json.str "N/A") habs (Or.inr rfl))
        (jGetD_append_absent fields "created_at" "html_url" (Json.str "N/A")
          (Json.str ("https://github.com/" ++ u)) habs (Or.inl (by decide)))
    simp [get_github_user_info, h, hfr]
  · intro habs
    have hfr : formatUserReply u
        (fields ++ [("html_url", Json.str ("https://github.com/" ++ u))]) =
        formatUserReply u fields :=
      formatUserReply_congr u _ _
        (jGetD_append_absent fields "html_url" "name"
          (Json.str ("https://github.com/" ++ u)) (Json.str "N/A") habs (Or.inl (by decide)))
        (jGetD_append_absent fields "html_url" "bio"
          (Json.str ("https://github.com/" ++ u)) (Json.str "N/A") habs (Or.inl (by decide)))
        (jGetD_append_absent fields "html_url" "public_repos"
          (Json.str ("https://github.com/" ++ u)) (Json.num 0) habs (Or.inl (by decide)))
        (jGetD_append_absent fields "html_url" "followers"
          (Json.str ("https://github.com/" ++ u)) (Json.num 0) habs (Or.inl (by decide)))
        (jGetD_append_absent fields "html_url" "following"
          (Json.str ("https://github.com/" ++ u)) (Json.num 0) habs (Or.inl (by decide)))
        (jGetD_append_absent fields "html_url" "created_at"
          (Json.str ("https://github.com/" ++ u)) (Json.str "N/A") habs (Or.inl (by decide)))
        (jGetD_append_absent fields "html_url" "html_url"
          (Json.str ("https://github.com/" ++ u))
          (Json.str ("https://github.com/" ++ u)) habs (Or.inr rfl))
    simp [get_github_user_info, h, hfr]

/-- Witness for C9: empty payload at `octocat`, and an absent `name` on a
payload carrying only `bio`. -/
theorem c9_witness :
    is_valid_github_username "octocat" = true ∧
    get_github_user_info (fun _ => .response 200 "OK" (.ok (.obj []))) "octocat" =
      ⟨"GitHub User: @octocat\nName: N/A\nBio: N/A\nPublic Repos: 0\nFollowers: 0\nFollowing: 0\nJoined: N/A\nProfile: https://github.com/octocat",
        true, [userUrl "octocat"]⟩ ∧
    get_github_user_info
        (fun _ => .response 200 "OK"
          (.ok (.obj ([("bio", Json.str "x")] ++ [("name", Json.str "N/A")])))) "octocat" =
      get_github_user_info
        (fun _ => .response 200 "OK" (.ok (.obj [("bio", Json.str "x")]))) "octocat" := by
  refine ⟨by decide, ?_, ?_⟩
  · exact (c9_absent_fields_are_defaulted "octocat" [] (by decide)).1
  · exact (c9_absent_fields_are_defaulted "octocat" [("bio", Json.str "x")]
      (by decide)).2.1 rfl

/-- Off the Success and NetworkOrTransportFailure tags, the profile reply
is the fixed text of the outcome tag for the identifier. -/
theorem user_reply_determined_by_tag (u : String) (r : HttpResult)
    (h1 : specTagUser u r ≠ OutcomeTag.success)
    (h2 : specTagUser u r ≠ OutcomeTag.networkOrTransportFailure) :
    (get_github_user_info (fun _ => r) u).reply =
      tagTextUser (specTagUser u r) u := by
  cases hv : is_valid_github_username u with
  | false => simp [specTagUser, get_github_user_info, tagTextUser, hv]
  | true =>
    cases r with
    | transportError msg => simp [specTagUser, hv] at h2
    | response status reason body =>
      by_cases h403 : status = 403
      · simp [specTagUser, get_github_user_info, tagTextUser, hv, h403]
      · by_cases hrange : 400 ≤ status ∧ status < 600
        · by_cases h404 : status = 404
          · simp [specTagUser, get_github_user_info, tagTextUser, hv, h403,
              hrange, h404]
          · exact absurd (by simp [specTagUser, hv, h403, hrange, h404]) h2
        · cases body with
          | error msg => exact absurd (by simp [specTagUser, hv, h403, hrange]) h2
          | ok j =>
            by_cases h200 : status = 200
            · cases j with
              | obj fs =>
                exact absurd (by simp [specTagUser, hv, h403, hrange, h200]) h1
              | null =>
                simp [specTagUser, get_github_user_info, tagTextUser, hv, h403,
                  hrange, h200]
              | bool b =>
                simp [specTagUser, get_github_user_info, tagTextUser, hv, h403,
                  hrange, h200]
              | num n =>
                simp [specTagUser, get_github_user_info, tagTextUser, hv, h403,
                  hrange, h200]
              | str s =>
                simp [specTagUser, get_github_user_info, tagTextUser, hv, h403,
                  hrange, h200]
              | arr es =>
                simp [specTagUser, get_github_user_info, tagTextUser, hv, h403,
                  hrange, h200]
            · have : specTagUser u (.response status reason (.ok j)) =
                  .networkOrTransportFailure := by
                cases j <;> simp [specTagUser, hv, h403, hrange, h200]
              exact absurd this h2

/-- Off the Success and NetworkOrTransportFailure tags, the repositories
reply is the fixed text of the outcome tag for the identifier. -/
theorem repos_reply_determined_by_tag (u : String) (r : HttpResult)
    (h1 : specTagRepos u r ≠ OutcomeTag.success)
    (h2 : specTagRepos u r ≠ OutcomeTag.networkOrTransportFailure) :
    (get_github_repos (fun _ => r) u).reply =
      tagTextRepos (specTagRepos u r) u := by
  cases hv : is_valid_github_username u with
  | false => simp [specTagRepos, get_github_repos, tagTextRepos, hv]
  | true =>
    cases r with
    | transportError msg => simp [specTagRepos, hv] at h2
    | response status reason body =>
      by_cases h403 : status = 403
      · simp [specTagRepos, get_github_repos, tagTextRepos, hv, h403]
      · by_cases hrange : 400 ≤ status ∧ status < 600
        · by_cases h404 : status = 404
          · simp [specTagRepos, get_github_repos, tagTextRepos, hv, h403,
              hrange, h404]
          · exact absurd (by simp [specTagRepos, hv, h403, hrange, h404]) h2
        · cases body with
          | error msg => exact absurd (by simp [specTagRepos, hv, h403, hrange]) h2
          | ok j =>
            by_cases h200 : status = 200
            · cases j with
              | arr es =>
                exact absurd (by simp [specTagRepos, hv, h403, hrange, h200]) h1
              | null =>
                simp [specTagRepos, get_github_repos, tagTextRepos, hv, h403,
                  hrange, h200]
              | bool b =>
                simp [specTagRepos, get_github_repos, tagTextRepos, hv, h403,
                  hrange, h200]
              | num n =>
                simp [specTagRepos, get_github_repos, tagTextRepos, hv, h403,
                  hrange, h200]
              | str s =>
                simp [specTagRepos, get_github_repos, tagTextRepos, hv, h403,
                  hrange, h200]
              | obj fs =>
                simp [specTagRepos, get_github_repos, tagTextRepos, hv, h403,
                  hrange, h200]
            · have : specTagRepos u (.response status reason (.ok j)) =
                  .networkOrTransportFailure := by
                cases j <;> simp [specTagRepos, hv, h403, hrange, h200]
              exact absurd this h2

/-- Claim C7 counterexample: HTTP 500 and HTTP 502 both fall under the
NetworkOrTransportFailure tag for the same identifier, both fail, yet
their reply texts differ because the reply embeds `str(e)` of the raised
`HTTPError`; and a transport error's reply embeds the internal exception
text verbatim. -/
theorem c7_counterexample :
    specTagUser "octocat"
        (HttpResult.response 500 "Internal Server Error" (Except.ok Json.null)) =
      OutcomeTag.networkOrTransportFailure ∧
    specTagUser "octocat"
        (HttpResult.response 502 "Bad Gateway" (Except.ok Json.null)) =
      OutcomeTag.networkOrTransportFailure ∧
    (get_github_user_info
        (fun _ => HttpResult.response 500 "Internal Server Error" (Except.ok Json.null))
        "octocat").success = false ∧
    (get_github_user_info
        (fun _ => HttpResult.response 502 "Bad Gateway" (Except.ok Json.null))
        "octocat").success = false ∧
    (get_github_user_info
        (fun _ => HttpResult.response 500 "Internal Server Error" (Except.ok Json.null))
        "octocat").reply ≠
      (get_github_user_info
        (fun _ => HttpResult.response 502 "Bad Gateway" (Except.ok Json.null))
        "octocat").reply ∧
    (get_github_user_info
        (fun _ => HttpResult.transportError "connection reset by peer")
        "octocat").reply =
      "An unexpected error occurred: connection reset by peer. Please try again." := by
  decide

/-- Claim C7 as amended: for every non-success outcome other than
NetworkOrTransportFailure, the reply text is a deterministic function of
the outcome tag and the identifier alone; NetworkOrTransportFailure
replies additionally embed the diagnostic of the underlying error (HTTP
status, reason phrase or exception message) and may differ for the same
tag and identifier. -/
theorem c7_amended_reply_determinism (u : String) (r₁ r₂ : HttpResult) :
    (specTagUser u r₁ = specTagUser u r₂ →
      specTagUser u r₁ ≠ OutcomeTag.success →
      specTagUser u r₁ ≠ OutcomeTag.networkOrTransportFailure →
      (get_github_user_info (fun _ => r₁) u).reply =
        (get_github_user_info (fun _ => r₂) u).reply) ∧
    (specTagRepos u r₁ = specTagRepos u r₂ →
      specTagRepos u r₁ ≠ OutcomeTag.success →
      specTagRepos u r₁ ≠ OutcomeTag.networkOrTransportFailure →
      (get_github_repos (fun _ => r₁) u).reply =
        (get_github_repos (fun _ => r₂) u).reply) := by
  constructor
  · intro he h1 h2
    rw [user_reply_determined_by_tag u r₁ h1 h2,
      user_reply_determined_by_tag u r₂ (he ▸ h1) (he ▸ h2), he]
  · intro he h1 h2
    rw [repos_reply_determined_by_tag u r₁ h1 h2,
      repos_reply_determined_by_tag u r₂ (he ▸ h1) (he ▸ h2), he]

/-- Witness for the amended C7: two different 404 responses (different
reason phrase, one with an unparseable body) share the NotFound tag and
produce identical reply text. -/
theorem c7_witness :
    specTagUser "octocat" (HttpResult.response 404 "Not Found" (Except.ok Json.null)) =
      specTagUser "octocat" (HttpResult.response 404 "NF" (Except.error "boom")) ∧
    (get_github_user_info
        (fun _ => HttpResult.response 404 "Not Found" (Except.ok Json.null))
        "octocat").reply =
      (get_github_user_info
        (fun _ => HttpResult.response 404 "NF" (Except.error "boom"))
        "octocat").reply := by
  refine ⟨by decide, ?_⟩
  exact (c7_amended_reply_determinism "octocat"
    (HttpResult.response 404 "Not Found" (Except.ok Json.null))
    (HttpResult.response 404 "NF" (Except.error "boom"))).1
    (by decide) (by decide) (by decide)

end GithubStat
